import Mathlib

/-!
Verification of the table-tennis academy backend (server.js).

We shallowly embed the SQLite-backed students/payments store and the five
handlers the claims are about: GET /api/payments, POST /api/payments,
PUT /api/students/:id, PUT /api/payments/status/:studentId and
DELETE /api/students/:id.  Dates are modelled as day numbers (so that
date(d, '+30 days') is d + 30 and date('now') is a parameter today);
REAL amounts are modelled as exact rationals; nullable columns as Option.
A transaction is a single state transition on the database value, with
ROLLBACK modelled as returning the snapshot taken at BEGIN.
-/

namespace TTA

/-- Stored payment status: column TEXT with
CHECK(status IN ('paid', 'pending', 'overdue')), DEFAULT 'pending'. -/
inductive PayStatus
  | paid
  | pending
  | overdue
deriving DecidableEq, Repr

/-- A row of the students table: id INTEGER PRIMARY KEY AUTOINCREMENT,
name TEXT NOT NULL, email/phone/package/start_date/end_date TEXT (nullable),
amount REAL (nullable), created_at DATETIME DEFAULT CURRENT_TIMESTAMP.
The model keeps name as Option so that the NOT NULL constraint is a fact
about operations rather than about the type. -/
structure Student where
  id : Nat
  name : Option String
  email : Option String
  phone : Option String
  package : Option String
  start_date : Option String
  end_date : Option String
  amount : Option Rat
  created_at : Nat
deriving DecidableEq, Repr

/-- A row of the payments table: id INTEGER PRIMARY KEY AUTOINCREMENT,
student_id INTEGER nullable with FOREIGN KEY REFERENCES students(id)
ON DELETE CASCADE, amount REAL NOT NULL, payment_date TEXT NOT NULL,
payment_method TEXT, notes TEXT, status TEXT DEFAULT 'pending',
created_at DATETIME DEFAULT CURRENT_TIMESTAMP. -/
structure Payment where
  id : Nat
  student_id : Option Nat
  amount : Rat
  payment_date : Nat
  payment_method : Option String
  notes : Option String
  status : PayStatus
  created_at : Nat
deriving DecidableEq, Repr

/-- The database file: the two tables plus the AUTOINCREMENT counter for
payments (the only table the modelled operations insert into). -/
structure DB where
  students : List Student
  payments : List Payment
  nextPaymentId : Nat
deriving DecidableEq, Repr

/-- An HTTP error response: status code and the error string in the JSON body. -/
abbrev HttpError := Nat × String

/-- dbGet('SELECT * FROM students WHERE id = ?', [id]). -/
def findStudent (db : DB) (id : Nat) : Option Student :=
  db.students.find? (fun s => s.id == id)

/-- dbAll('SELECT * FROM payments WHERE student_id = ?', [sid]). -/
def paymentsOf (db : DB) (sid : Nat) : List Payment :=
  db.payments.filter (fun p => p.student_id == some sid)

/-- One row of the GET /api/payments response: p.* plus the joined
s.name as student_name and the derived current_status column. -/
structure PaymentRow where
  payment : Payment
  student_name : Option String
  current_status : String
deriving DecidableEq, Repr

/-- The CASE expression of GET /api/payments:
CASE WHEN p.status = 'paid' THEN 'paid'
     WHEN date('now') > date(p.payment_date, '+30 days') THEN 'overdue'
     ELSE 'pending' END. -/
def currentStatus (today : Nat) (p : Payment) : String :=
  if p.status = PayStatus.paid then "paid"
  else if p.payment_date + 30 < today then "overdue"
  else "pending"

/-- One joined row: LEFT JOIN students s ON p.student_id = s.id keeps the
payment and yields NULL student_name when the reference is NULL or dangling. -/
def joinRow (db : DB) (today : Nat) (p : Payment) : PaymentRow :=
  { payment := p
    student_name :=
      match p.student_id with
      | none => none
      | some sid => (findStudent db sid).bind Student.name
    current_status := currentStatus today p }

/-- Insertion into a list kept in descending payment_date order. -/
def insertDesc (r : PaymentRow) : List PaymentRow → List PaymentRow
  | [] => [r]
  | x :: xs =>
    if r.payment.payment_date ≤ x.payment.payment_date then x :: insertDesc r xs
    else r :: x :: xs

/-- ORDER BY p.payment_date DESC (a sort; SQLite leaves tie order unspecified). -/
def sortDesc : List PaymentRow → List PaymentRow
  | [] => []
  | x :: xs => insertDesc x (sortDesc xs)

/-- GET /api/payments: SELECT p.*, s.name as student_name, CASE ... END as
current_status FROM payments p LEFT JOIN students s ON p.student_id = s.id
ORDER BY p.payment_date DESC.  A read: it returns rows and leaves the
database value untouched (the handler performs no write). -/
def listPayments (db : DB) (today : Nat) : List PaymentRow :=
  sortDesc (db.payments.map (joinRow db today))

/-- The JSON body of POST /api/payments; absent fields arrive as NULL binds. -/
structure PaymentReq where
  student_id : Option Nat
  amount : Option Rat
  payment_date : Option Nat
  payment_method : Option String
  notes : Option String
deriving DecidableEq, Repr

/-- POST /api/payments: INSERT INTO payments (student_id, amount,
payment_date, payment_method, notes) VALUES (?, ?, ?, ?, ?).  The engine
enforces NOT NULL on amount and payment_date and, with
PRAGMA foreign_keys = ON, that a non-NULL student_id references an existing
student; a NULL student_id satisfies the constraint.  status takes its
DEFAULT 'pending' and created_at the current timestamp.  On success the
handler answers 201 with the row re-read by id; on any engine error the
catch answers 500 'Error creating payment'. -/
def createPayment (db : DB) (today : Nat) (req : PaymentReq) :
    Except HttpError Payment × DB :=
  match req.amount, req.payment_date with
  | some a, some d =>
    let fkOk : Bool :=
      match req.student_id with
      | none => true
      | some sid => (findStudent db sid).isSome
    if fkOk then
      let p : Payment :=
        { id := db.nextPaymentId, student_id := req.student_id, amount := a,
          payment_date := d, payment_method := req.payment_method,
          notes := req.notes, status := PayStatus.pending, created_at := today }
      (Except.ok p,
       { db with payments := db.payments ++ [p],
                 nextPaymentId := db.nextPaymentId + 1 })
    else (Except.error (500, "Error creating payment"), db)
  | _, _ => (Except.error (500, "Error creating payment"), db)

/-- The JSON body of PUT /api/students/:id; absent fields arrive as NULL binds. -/
structure StudentReq where
  name : Option String
  email : Option String
  phone : Option String
  package : Option String
  start_date : Option String
  end_date : Option String
  amount : Option Rat
deriving DecidableEq, Repr

/-- The SET clause of the UPDATE: all seven columns are written from the
request binds; id and created_at are not in the SET clause. -/
def overwriteFields (req : StudentReq) (s : Student) : Student :=
  { s with name := req.name, email := req.email, phone := req.phone,
           package := req.package, start_date := req.start_date,
           end_date := req.end_date, amount := req.amount }

/-- PUT /api/students/:id: 404 'Student not found' when the existence check
fails; otherwise UPDATE students SET name = ?, email = ?, phone = ?,
package = ?, start_date = ?, end_date = ?, amount = ? WHERE id = ?.
Because students.name is NOT NULL, an absent name binds NULL and the
statement fails the constraint, so the catch answers 500 'Error updating
student' and no row changes.  On success the handler re-reads the row and
answers 200 with it. -/
def updateStudent (db : DB) (id : Nat) (req : StudentReq) :
    Except HttpError (Option Student) × DB :=
  match findStudent db id with
  | none => (Except.error (404, "Student not found"), db)
  | some _ =>
    match req.name with
    | none => (Except.error (500, "Error updating student"), db)
    | some _ =>
      let db' : DB :=
        { db with students :=
            db.students.map (fun s => if s.id == id then overwriteFields req s else s) }
      (Except.ok (findStudent db' id), db')

/-- The 200 body of DELETE /api/students/:id. -/
structure DeleteResp where
  success : Bool
  message : String
  deletedPayments : Nat
deriving DecidableEq, Repr

/-- DELETE /api/students/:id, with a possible interleaved writer: dbCheck is
the database seen by the pre-transaction reads (the existence check and the
payments fetch), dbTx the database the transaction's DELETE runs against
(another request may commit in between; dbCheck = dbTx is the sequential
case).  Steps: 404 'Student not found' if the check misses; otherwise
BEGIN TRANSACTION, DELETE FROM students WHERE id = ? (this.changes counts
the student rows hit; ON DELETE CASCADE removes the payments referencing
the deleted student within the same statement); if this.changes = 0 the
handler ROLLBACKs and rejects with 'No student found with the specified
ID', which the catch maps to 404; otherwise COMMIT and answer 200. -/
def deleteStudentFrom (dbCheck dbTx : DB) (id : Nat) :
    Except HttpError DeleteResp × DB :=
  match findStudent dbCheck id with
  | none => (Except.error (404, "Student not found"), dbTx)
  | some _ =>
    let ps := paymentsOf dbCheck id
    let changes := dbTx.students.countP (fun s => s.id == id)
    if changes = 0 then
      (Except.error (404, "No student found with the specified ID"), dbTx)
    else
      (Except.ok { success := true,
                   message := "Student and all associated payments deleted successfully",
                   deletedPayments := ps.length },
       { dbTx with
         students := dbTx.students.filter (fun s => !(s.id == id)),
         payments := dbTx.payments.filter (fun p => !(p.student_id == some id)) })

/-- DELETE /api/students/:id with no interleaved writer. -/
def deleteStudent (db : DB) (id : Nat) : Except HttpError DeleteResp × DB :=
  deleteStudentFrom db db id

/-- The 200 body of PUT /api/payments/status/:studentId. -/
structure ReconcileResp where
  success : Bool
  message : String
  payments : List Payment
deriving DecidableEq, Repr

/-- The CASE of the per-payment UPDATE in the reconciliation:
CASE WHEN ? >= ? THEN 'paid' (bound to [amount, student.amount]; when
student.amount is NULL the SQL comparison is NULL, hence not taken)
WHEN date('now') > date(payment_date, '+30 days') THEN 'overdue'
ELSE 'pending' END. -/
def reconStatus (amt : Rat) (samt : Option Rat) (today : Nat) (p : Payment) : PayStatus :=
  if (match samt with
      | some a => decide (a ≤ amt)
      | none => false) then PayStatus.paid
  else if p.payment_date + 30 < today then PayStatus.overdue
  else PayStatus.pending

/-- The row produced by one UPDATE of the reconciliation loop. -/
def applyStatus (amt : Rat) (samt : Option Rat) (today : Nat) (q : Payment) : Payment :=
  { q with status := reconStatus amt samt today q }

/-- UPDATE payments SET status = CASE ... END WHERE id = ?. -/
def setStatus (amt : Rat) (samt : Option Rat) (today : Nat) (pid : Nat)
    (l : List Payment) : List Payment :=
  l.map (fun q => if q.id = pid then applyStatus amt samt today q else q)

/-- The for-loop of the reconciliation: one UPDATE per fetched payment, in
order.  failAt k makes the k-th write of the transaction (0-based) reject
with an engine error, in which case the loop stops with no result. -/
def runStatusUpdates (amt : Rat) (samt : Option Rat) (today : Nat)
    (failAt : Option Nat) : Nat → List Payment → List Payment → Option (List Payment)
  | _, [], l => some l
  | k, p :: rest, l =>
    if failAt = some k then none
    else runStatusUpdates amt samt today failAt (k + 1) rest
           (setStatus amt samt today p.id l)

/-- PUT /api/payments/status/:studentId with body amount: inside
BEGIN TRANSACTION, fetch the student's payments, compute totalPaid (unused
afterwards), look the student's amount up ('Student not found' throws,
ROLLBACK, and the catch answers 500 'Error updating payment status'); with
no payment rows, INSERT one synthetic payment dated today with method
'System', notes 'Initial payment record', the supplied amount and status
'paid' when that amount equals the student's amount else 'pending';
otherwise run one status UPDATE per payment.  Any failing write ROLLBACKs
to the BEGIN snapshot and the catch answers 500; otherwise COMMIT and
answer 200 with the student's payments re-read. -/
def reconcilePaymentStatus (db : DB) (sid : Nat) (amt : Rat) (today : Nat)
    (failAt : Option Nat) : Except HttpError ReconcileResp × DB :=
  let ps := paymentsOf db sid
  let _totalPaid : Rat := (ps.map Payment.amount).sum
  match findStudent db sid with
  | none => (Except.error (500, "Error updating payment status"), db)
  | some s =>
    if ps.isEmpty then
      if failAt = some 0 then
        (Except.error (500, "Error updating payment status"), db)
      else
        let newP : Payment :=
          { id := db.nextPaymentId, student_id := some sid, amount := amt,
            payment_date := today, payment_method := some "System",
            notes := some "Initial payment record",
            status := if s.amount = some amt then PayStatus.paid else PayStatus.pending,
            created_at := today }
        let db' : DB :=
          { db with payments := db.payments ++ [newP],
                    nextPaymentId := db.nextPaymentId + 1 }
        (Except.ok { success := true,
                     message := "Payment status updated successfully",
                     payments := paymentsOf db' sid }, db')
    else
      match runStatusUpdates amt s.amount today failAt 0 ps db.payments with
      | none => (Except.error (500, "Error updating payment status"), db)
      | some pl =>
        let db' : DB := { db with payments := pl }
        (Except.ok { success := true,
                     message := "Payment status updated successfully",
                     payments := paymentsOf db' sid }, db')

/-- The status code of an error outcome of the delete endpoint. -/
def errStatus : Except HttpError DeleteResp → Option Nat
  | Except.error e => some e.1
  | Except.ok _ => none

/-- Example student, id 1, package price 100. -/
def exStudentA : Student :=
  { id := 1, name := some "Alice", email := none, phone := none,
    package := none, start_date := none, end_date := none,
    amount := some 100, created_at := 0 }

/-- Example payment of student 1: 40 on day 10, pending. -/
def exPayA : Payment :=
  { id := 1, student_id := some 1, amount := 40, payment_date := 10,
    payment_method := none, notes := none, status := PayStatus.pending,
    created_at := 10 }

/-- Example payment of student 1: 60 on day 100, pending. -/
def exPayB : Payment :=
  { id := 2, student_id := some 1, amount := 60, payment_date := 100,
    payment_method := none, notes := none, status := PayStatus.pending,
    created_at := 100 }

/-- Empty database. -/
def exDBempty : DB := { students := [], payments := [], nextPaymentId := 1 }

/-- Database with student 1 and no payments. -/
def exDBsolo : DB := { students := [exStudentA], payments := [], nextPaymentId := 1 }

/-- Database with student 1 and payments 1 and 2. -/
def exDBfull : DB :=
  { students := [exStudentA], payments := [exPayA, exPayB], nextPaymentId := 3 }

/-- The all-absent PUT /api/students/:id body. -/
def exReqEmpty : StudentReq :=
  { name := none, email := none, phone := none, package := none,
    start_date := none, end_date := none, amount := none }

/-- A fully populated PUT /api/students/:id body except name. -/
def exReqBob : StudentReq :=
  { name := some "Bob", email := some "bob@x.y", phone := none,
    package := some "gold", start_date := some "2024-01-01",
    end_date := none, amount := some 120 }

/-- Splitting a list by a Bool predicate accounts for its whole length. -/
theorem length_filter_not_add {α : Type} (l : List α) (p : α → Bool) :
    (l.filter p).length + (l.filter (fun a => !(p a))).length = l.length := by
  induction l with
  | nil => rfl
  | cons x xs ih =>
    cases h : p x <;> simp [List.filter_cons, h] <;> omega

/-- After filtering the id out, no student with that id is found. -/
theorem findStudent_filter_ne (db : DB) (id : Nat) :
    ((db.students.filter (fun s => !(s.id == id))).find?
       (fun s => s.id == id)) = none := by
  rw [List.find?_eq_none]
  intro s hs
  have h2 := (List.mem_filter.mp hs).2
  simp only [Bool.not_eq_true'] at h2
  simp [h2]

/-- Claim C1: after a successful deleteStudent (DELETE /api/students/:id
answering 200), the committed database holds no payment whose student_id is
the deleted id and no student with that id, and the commit is one state
transition from the pre-state that removes the student row and its payment
rows together: no state in which one is gone and the other remains is ever
a value of the model. -/
theorem deleteStudent_cascade (db : DB) (id : Nat) (resp : DeleteResp) (db' : DB)
    (h : deleteStudent db id = (Except.ok resp, db')) :
    (∀ p ∈ db'.payments, p.student_id ≠ some id) ∧
    (∀ s ∈ db'.students, s.id ≠ id) ∧
    db'.payments = db.payments.filter (fun p => !(p.student_id == some id)) ∧
    db'.students = db.students.filter (fun s => !(s.id == id)) := by
  rw [deleteStudent, deleteStudentFrom] at h
  cases hf : findStudent db id with
  | none => rw [hf] at h; exact absurd (congrArg Prod.fst h) (by simp)
  | some s0 =>
    rw [hf] at h
    simp only at h
    by_cases hc : db.students.countP (fun s => s.id == id) = 0
    · rw [if_pos hc] at h
      exact absurd (congrArg Prod.fst h) (by simp)
    · rw [if_neg hc] at h
      have h2 := congrArg Prod.snd h
      simp only at h2
      subst h2
      refine ⟨?_, ?_, rfl, rfl⟩
      · intro p hp
        have h2 := (List.mem_filter.mp hp).2
        simp only [Bool.not_eq_true'] at h2
        simpa using h2
      · intro s hs
        have h2 := (List.mem_filter.mp hs).2
        simp only [Bool.not_eq_true'] at h2
        simpa using h2

/-- Witness for C1: deleting student 1 from the example database removes
both payment rows owned by student 1 and the student row, in one transition. -/
theorem deleteStudent_cascade_witness :
    (∀ p ∈ (deleteStudent exDBfull 1).2.payments, p.student_id ≠ some 1) ∧
    (∀ s ∈ (deleteStudent exDBfull 1).2.students, s.id ≠ 1) ∧
    (deleteStudent exDBfull 1).2.payments =
      exDBfull.payments.filter (fun p => !(p.student_id == some 1)) ∧
    (deleteStudent exDBfull 1).2.students =
      exDBfull.students.filter (fun s => !(s.id == 1)) :=
  deleteStudent_cascade exDBfull 1
    { success := true,
      message := "Student and all associated payments deleted successfully",
      deletedPayments := 2 }
    (deleteStudent exDBfull 1).2 rfl

/-- Claim C2: deleting an id with no student answers 404 'Student not found'
and changes no row of either table; hence a second delete of an id just
deleted successfully answers 404 with no further side effect. -/
theorem deleteStudent_not_found (db : DB) (id : Nat) :
    (findStudent db id = none →
       deleteStudent db id = (Except.error (404, "Student not found"), db)) ∧
    (∀ resp db', deleteStudent db id = (Except.ok resp, db') →
       deleteStudent db' id = (Except.error (404, "Student not found"), db')) := by
  constructor
  · intro hf
    rw [deleteStudent, deleteStudentFrom, hf]
  · intro resp db' h
    have hcasc := deleteStudent_cascade db id resp db' h
    have hnone : findStudent db' id = none := by
      rw [findStudent, hcasc.2.2.2, findStudent_filter_ne]
    rw [deleteStudent, deleteStudentFrom, hnone]

/-- Witness for C2: deleting student 1 from the empty database answers 404
unchanged, and re-deleting student 1 right after a successful delete
answers 404 with the state of the first delete unchanged. -/
theorem deleteStudent_not_found_witness :
    deleteStudent exDBempty 1 =
      (Except.error (404, "Student not found"), exDBempty) ∧
    deleteStudent (deleteStudent exDBfull 1).2 1 =
      (Except.error (404, "Student not found"), (deleteStudent exDBfull 1).2) :=
  ⟨(deleteStudent_not_found exDBempty 1).1 rfl,
   (deleteStudent_not_found exDBfull 1).2
     { success := true,
       message := "Student and all associated payments deleted successfully",
       deletedPayments := 2 }
     (deleteStudent exDBfull 1).2 rfl⟩

/-- Claim C8: a successful delete reports deletedPayments equal to the
number of payment rows with the deleted student_id, which is exactly the
number of payment rows the deletion removed. -/
theorem deleteStudent_count (db : DB) (id : Nat) (resp : DeleteResp) (db' : DB)
    (h : deleteStudent db id = (Except.ok resp, db')) :
    resp.deletedPayments =
      (db.payments.filter (fun p => p.student_id == some id)).length ∧
    resp.deletedPayments = db.payments.length - db'.payments.length := by
  have hcasc := deleteStudent_cascade db id resp db' h
  rw [deleteStudent, deleteStudentFrom] at h
  cases hf : findStudent db id with
  | none => rw [hf] at h; exact absurd (congrArg Prod.fst h) (by simp)
  | some s0 =>
    rw [hf] at h
    simp only at h
    by_cases hc : db.students.countP (fun s => s.id == id) = 0
    · rw [if_pos hc] at h
      exact absurd (congrArg Prod.fst h) (by simp)
    · rw [if_neg hc] at h
      have h1 := congrArg Prod.fst h
      simp only at h1
      injection h1 with hresp
      have hlen : resp.deletedPayments = (paymentsOf db id).length := by
        rw [hresp.symm]
      refine ⟨hlen, ?_⟩
      have hsplit := length_filter_not_add db.payments
        (fun p => p.student_id == some id)
      rw [hlen, hcasc.2.2.1]
      rw [paymentsOf]
      omega

/-- Witness for C8: the example delete reports 2 deleted payments, the
number of payment rows of student 1 and the drop in the payments table. -/
theorem deleteStudent_count_witness :
    ({ success := true,
       message := "Student and all associated payments deleted successfully",
       deletedPayments := 2 } : DeleteResp).deletedPayments =
      (exDBfull.payments.filter (fun p => p.student_id == some 1)).length ∧
    ({ success := true,
       message := "Student and all associated payments deleted successfully",
       deletedPayments := 2 } : DeleteResp).deletedPayments =
      exDBfull.payments.length - (deleteStudent exDBfull 1).2.payments.length :=
  deleteStudent_count exDBfull 1
    { success := true,
      message := "Student and all associated payments deleted successfully",
      deletedPayments := 2 }
    (deleteStudent exDBfull 1).2 rfl

/-- Counterexample to claim C3: when the student vanishes between the
existence check and the transaction's DELETE (check sees exDBsolo, the
DELETE runs against exDBempty), the handler does abort, but it surfaces the
failure as HTTP 404 — the very status code the NotFoundError path uses —
with message 'No student found with the specified ID'.  There is no
ConflictError kind distinct from not-found: both failure paths carry
status 404. -/
theorem deleteStudent_race_not_conflict :
    (deleteStudentFrom exDBsolo exDBempty 1).1 =
      Except.error (404, "No student found with the specified ID") ∧
    (deleteStudent exDBempty 1).1 = Except.error (404, "Student not found") ∧
    errStatus (deleteStudentFrom exDBsolo exDBempty 1).1 =
      errStatus (deleteStudent exDBempty 1).1 :=
  ⟨rfl, rfl, rfl⟩

/-- Claim C3 as amended: if the DELETE inside the transaction affects zero
rows (the student vanished between the initial existence check and the
delete), the transaction is aborted — the committed state is exactly the
pre-transaction state, nothing is half-deleted — and the operation fails,
surfaced as HTTP 404 with message 'No student found with the specified ID'
(the same 404 status code as the not-found error, distinguished only by its
message), not as a ConflictError kind distinct from NotFoundError. -/
theorem deleteStudent_race_rollback (db0 db1 : DB) (id : Nat) (s : Student)
    (h0 : findStudent db0 id = some s)
    (h1 : db1.students.countP (fun x => x.id == id) = 0) :
    deleteStudentFrom db0 db1 id =
      (Except.error (404, "No student found with the specified ID"), db1) := by
  rw [deleteStudentFrom, h0]
  simp only
  rw [if_pos h1]

/-- Witness for the amended C3: the concrete race between exDBsolo and
exDBempty rolls back to exDBempty and answers 404. -/
theorem deleteStudent_race_rollback_witness :
    deleteStudentFrom exDBsolo exDBempty 1 =
      (Except.error (404, "No student found with the specified ID"), exDBempty) :=
  deleteStudent_race_rollback exDBsolo exDBempty 1 exStudentA rfl rfl

/-- Membership in an ordered insertion. -/
theorem mem_insertDesc (r x : PaymentRow) (l : List PaymentRow) :
    x ∈ insertDesc r l ↔ x = r ∨ x ∈ l := by
  induction l with
  | nil => simp [insertDesc]
  | cons y ys ih =>
    by_cases hc : r.payment.payment_date ≤ y.payment.payment_date
    · rw [insertDesc, if_pos hc]
      simp only [List.mem_cons, ih]
      tauto
    · rw [insertDesc, if_neg hc]
      simp only [List.mem_cons]

/-- ORDER BY only reorders: membership in the sorted rows is membership in
the unsorted rows. -/
theorem mem_sortDesc (x : PaymentRow) (l : List PaymentRow) :
    x ∈ sortDesc l ↔ x ∈ l := by
  induction l with
  | nil => simp [sortDesc]
  | cons y ys ih =>
    rw [sortDesc, mem_insertDesc, ih, List.mem_cons]

/-- Claim C4: every row of GET /api/payments carries a payment that is a
row of the payments table read unmodified (the handler writes nothing, so
the stored status is never mutated), and its derived current_status is
'paid' when the stored status is 'paid'; otherwise it is 'overdue' exactly
when today is strictly beyond payment_date + 30 days, and in every other
case — including the tie at exactly 30 days, which is not overdue —
it is 'pending'. -/
theorem listPayments_current_status (db : DB) (today : Nat) :
    ∀ row ∈ listPayments db today,
      row.payment ∈ db.payments ∧
      (row.payment.status = PayStatus.paid → row.current_status = "paid") ∧
      (row.payment.status ≠ PayStatus.paid →
        (row.current_status = "overdue" ↔ row.payment.payment_date + 30 < today)) ∧
      (row.payment.status ≠ PayStatus.paid →
        ¬ row.payment.payment_date + 30 < today →
        row.current_status = "pending") := by
  intro row hr
  rw [listPayments, mem_sortDesc] at hr
  obtain ⟨p, hp, rfl⟩ := List.mem_map.mp hr
  have hpay : (joinRow db today p).payment = p := rfl
  have hcs : (joinRow db today p).current_status = currentStatus today p := rfl
  rw [hpay, hcs]
  refine ⟨hp, ?_, ?_, ?_⟩
  · intro hpaid
    rw [currentStatus, if_pos hpaid]
  · intro hnp
    rw [currentStatus, if_neg hnp]
    by_cases hod : p.payment_date + 30 < today
    · rw [if_pos hod]
      exact ⟨fun _ => hod, fun _ => rfl⟩
    · rw [if_neg hod]
      constructor
      · intro hcontr; exact absurd hcontr (by decide)
      · intro hcontr; exact absurd hcontr hod
  · intro hnp hod
    rw [currentStatus, if_neg hnp, if_neg hod]

/-- Witness for C4: in the example database on day 100, the row of the
pending payment dated day 10 satisfies the derivation (it is overdue, since
100 > 40), hypotheses discharged on the concrete row. -/
theorem listPayments_current_status_witness :
    joinRow exDBfull 100 exPayA ∈ listPayments exDBfull 100 ∧
    ((joinRow exDBfull 100 exPayA).payment ∈ exDBfull.payments ∧
     ((joinRow exDBfull 100 exPayA).payment.status = PayStatus.paid →
        (joinRow exDBfull 100 exPayA).current_status = "paid") ∧
     ((joinRow exDBfull 100 exPayA).payment.status ≠ PayStatus.paid →
        ((joinRow exDBfull 100 exPayA).current_status = "overdue" ↔
          (joinRow exDBfull 100 exPayA).payment.payment_date + 30 < 100)) ∧
     ((joinRow exDBfull 100 exPayA).payment.status ≠ PayStatus.paid →
        ¬ (joinRow exDBfull 100 exPayA).payment.payment_date + 30 < 100 →
        (joinRow exDBfull 100 exPayA).current_status = "pending")) :=
  ⟨by decide,
   listPayments_current_status exDBfull 100 (joinRow exDBfull 100 exPayA) (by decide)⟩

/-- Counterexample to claim C10: for the existing student 1 and a request
body with every field absent, the UPDATE binds NULL for name, violating the
NOT NULL constraint of students.name, so the whole statement fails: the
handler answers 500 'Error updating student' and the row keeps all its old
values — the seven fields are not overwritten with null. -/
theorem updateStudent_absent_name_fails :
    updateStudent exDBsolo 1 exReqEmpty =
      (Except.error (500, "Error updating student"), exDBsolo) ∧
    (updateStudent exDBsolo 1 exReqEmpty).2.students = [exStudentA] :=
  ⟨rfl, rfl⟩

/-- Claim C10 as amended: on an existing student, when the request supplies
name, the update succeeds (200) and overwrites all seven of name, email,
phone, package, start_date, end_date and amount with the request values —
each field absent from the body is written as null, there is no partial
update — keeping the row's id and created_at; every other student row and
all payment rows are unchanged.  When name is absent, the UPDATE violates
the NOT NULL constraint on students.name and fails with 500, changing
nothing. -/
theorem updateStudent_overwrites (db : DB) (id : Nat) (req : StudentReq)
    (nm : String) (s0 : Student)
    (hs : findStudent db id = some s0) (hn : req.name = some nm) :
    (∃ r, (updateStudent db id req).1 = Except.ok r) ∧
    (updateStudent db id req).2.payments = db.payments ∧
    (updateStudent db id req).2.students.length = db.students.length ∧
    (∀ s ∈ db.students, s.id ≠ id → s ∈ (updateStudent db id req).2.students) ∧
    (∀ s ∈ db.students, s.id = id →
       { s with name := some nm, email := req.email, phone := req.phone,
                package := req.package, start_date := req.start_date,
                end_date := req.end_date, amount := req.amount } ∈
         (updateStudent db id req).2.students) := by
  have hupd : updateStudent db id req =
      (Except.ok (findStudent
         { db with students := (db.students.map
             (fun s => if s.id == id then overwriteFields req s else s)) } id),
       { db with students := (db.students.map
           (fun s => if s.id == id then overwriteFields req s else s)) }) := by
    rw [updateStudent, hs, hn]
  rw [hupd]
  refine ⟨⟨_, rfl⟩, rfl, by simp, ?_, ?_⟩
  · intro s hsmem hne
    have : (fun t => if t.id == id then overwriteFields req t else t) s = s := by
      simp [hne]
    exact this ▸ List.mem_map_of_mem _ hsmem
  · intro s hsmem heq
    have : (fun t => if t.id == id then overwriteFields req t else t) s =
        { s with name := some nm, email := req.email, phone := req.phone,
                 package := req.package, start_date := req.start_date,
                 end_date := req.end_date, amount := req.amount } := by
      simp [heq, overwriteFields, hn]
    exact this ▸ List.mem_map_of_mem _ hsmem

/-- Witness for the amended C10: updating student 1 of the example database
with the Bob request (name supplied, phone and end_date absent) succeeds,
leaves payments untouched, and puts the fully overwritten row — id 1 and
created_at 0 kept, phone and end_date now null — in the table. -/
theorem updateStudent_overwrites_witness :
    (∃ r, (updateStudent exDBsolo 1 exReqBob).1 = Except.ok r) ∧
    (updateStudent exDBsolo 1 exReqBob).2.payments = exDBsolo.payments ∧
    (updateStudent exDBsolo 1 exReqBob).2.students.length =
      exDBsolo.students.length ∧
    (∀ s ∈ exDBsolo.students, s.id ≠ 1 →
       s ∈ (updateStudent exDBsolo 1 exReqBob).2.students) ∧
    (∀ s ∈ exDBsolo.students, s.id = 1 →
       { s with name := some "Bob", email := exReqBob.email,
                phone := exReqBob.phone, package := exReqBob.package,
                start_date := exReqBob.start_date, end_date := exReqBob.end_date,
                amount := exReqBob.amount } ∈
         (updateStudent exDBsolo 1 exReqBob).2.students) :=
  updateStudent_overwrites exDBsolo 1 exReqBob "Bob" exStudentA rfl rfl

/-- Claim C5: for an existing student with a stored total amount and no
payment rows yet, the reconciliation commits exactly one synthetic payment:
dated today, method 'System', amount the supplied newAmount, status 'paid'
when newAmount equals the student's amount and 'pending' otherwise. -/
theorem reconcile_inserts_synthetic (db : DB) (sid : Nat) (amt A : Rat)
    (today : Nat) (s : Student)
    (hs : findStudent db sid = some s) (hA : s.amount = some A)
    (hp : paymentsOf db sid = []) :
    ∃ resp, reconcilePaymentStatus db sid amt today none =
      (Except.ok resp,
       { db with
         payments := db.payments ++
           [{ id := db.nextPaymentId, student_id := some sid, amount := amt,
              payment_date := today, payment_method := some "System",
              notes := some "Initial payment record",
              status := if amt = A then PayStatus.paid else PayStatus.pending,
              created_at := today }],
         nextPaymentId := db.nextPaymentId + 1 }) := by
  rw [reconcilePaymentStatus, hs]
  simp only [hp, List.isEmpty_nil, if_true, List.map_nil, reduceCtorEq, if_false]
  have hcond : (if s.amount = some amt then PayStatus.paid else PayStatus.pending) =
      (if amt = A then PayStatus.paid else PayStatus.pending) := by
    rw [hA]
    by_cases h : amt = A
    · rw [if_pos (by rw [h]), if_pos h]
    · rw [if_neg (fun hh => h (Option.some.inj hh).symm), if_neg h]
  rw [hcond]
  exact ⟨_, rfl⟩

/-- Witness for C5: reconciling student 1 (amount 100, no payments) with
newAmount 100 on day 5 inserts one 'System' payment of 100 dated day 5. -/
theorem reconcile_inserts_synthetic_witness :
    ∃ resp, reconcilePaymentStatus exDBsolo 1 100 5 none =
      (Except.ok resp,
       { exDBsolo with
         payments := exDBsolo.payments ++
           [{ id := exDBsolo.nextPaymentId, student_id := some 1, amount := 100,
              payment_date := 5, payment_method := some "System",
              notes := some "Initial payment record",
              status := if (100 : Rat) = 100 then PayStatus.paid else PayStatus.pending,
              created_at := 5 }],
         nextPaymentId := exDBsolo.nextPaymentId + 1 }) :=
  reconcile_inserts_synthetic exDBsolo 1 100 100 5 exStudentA rfl rfl rfl

/-- Claim C7: the reconciliation is atomic.  When the student does not
exist the transaction is rolled back and the handler answers 500 with the
database exactly as before; and every failure outcome — student missing,
any status UPDATE or the synthetic INSERT rejecting (any failAt) — leaves
both tables unchanged: only a fully committed reconciliation is observable. -/
theorem reconcile_atomic (db : DB) (sid : Nat) (amt : Rat) (today : Nat)
    (failAt : Option Nat) :
    (findStudent db sid = none →
       reconcilePaymentStatus db sid amt today failAt =
         (Except.error (500, "Error updating payment status"), db)) ∧
    (∀ e db', reconcilePaymentStatus db sid amt today failAt =
        (Except.error e, db') → db' = db) := by
  constructor
  · intro hf
    rw [reconcilePaymentStatus, hf]
  · intro e db' h
    rw [reconcilePaymentStatus] at h
    cases hf : findStudent db sid with
    | none =>
      rw [hf] at h
      exact (congrArg Prod.snd h).symm
    | some s =>
      rw [hf] at h
      simp only at h
      by_cases hemp : (paymentsOf db sid).isEmpty
      · rw [if_pos hemp] at h
        by_cases hfail : failAt = some 0
        · rw [if_pos hfail] at h
          exact (congrArg Prod.snd h).symm
        · rw [if_neg hfail] at h
          exact absurd (congrArg Prod.fst h) (by simp)
      · rw [if_neg hemp] at h
        cases hrun : runStatusUpdates amt s.amount today failAt 0
            (paymentsOf db sid) db.payments with
        | none =>
          rw [hrun] at h
          exact (congrArg Prod.snd h).symm
        | some pl =>
          rw [hrun] at h
          exact absurd (congrArg Prod.fst h) (by simp)

/-- Witness for C7: reconciling a missing student against the empty
database errors with 500 and leaves the database untouched; a failing first
write over the populated database also leaves it untouched. -/
theorem reconcile_atomic_witness :
    reconcilePaymentStatus exDBempty 1 50 0 none =
      (Except.error (500, "Error updating payment status"), exDBempty) ∧
    (reconcilePaymentStatus exDBfull 1 50 200 (some 0)).2 = exDBfull :=
  ⟨(reconcile_atomic exDBempty 1 50 0 none).1 rfl,
   (reconcile_atomic exDBfull 1 50 200 (some 0)).2
     (500, "Error updating payment status") exDBfull rfl⟩

/-- Claim C9: POST /api/payments succeeds with an absent or null
student_id even under PRAGMA foreign_keys = ON — the column is nullable and
a NULL reference satisfies the constraint — and the created payment shows
up in GET /api/payments with a null student_name through the LEFT JOIN. -/
theorem createPayment_null_student (db : DB) (today : Nat) (a : Rat) (d : Nat)
    (m n : Option String) :
    ∃ p db',
      createPayment db today
        { student_id := none, amount := some a, payment_date := some d,
          payment_method := m, notes := n } = (Except.ok p, db') ∧
      p.student_id = none ∧
      ∃ row ∈ listPayments db' today, row.payment = p ∧ row.student_name = none := by
  refine ⟨{ id := db.nextPaymentId, student_id := none, amount := a,
            payment_date := d, payment_method := m, notes := n,
            status := PayStatus.pending, created_at := today },
          { db with
            payments := (db.payments ++
              [{ id := db.nextPaymentId, student_id := none, amount := a,
                 payment_date := d, payment_method := m, notes := n,
                 status := PayStatus.pending, created_at := today }]),
            nextPaymentId := db.nextPaymentId + 1 }, rfl, rfl, ?_⟩
  refine ⟨joinRow
      { db with
        payments := (db.payments ++
          [{ id := db.nextPaymentId, student_id := none, amount := a,
             payment_date := d, payment_method := m, notes := n,
             status := PayStatus.pending, created_at := today }]),
        nextPaymentId := db.nextPaymentId + 1 } today
      { id := db.nextPaymentId, student_id := none, amount := a,
        payment_date := d, payment_method := m, notes := n,
        status := PayStatus.pending, created_at := today }, ?_, rfl, rfl⟩
  rw [listPayments, mem_sortDesc]
  exact List.mem_map_of_mem _ (List.mem_append_right _ (List.mem_singleton.mpr rfl))

/-- Re-running the status UPDATE on an already updated row gives the same
row: the CASE reads only payment_date, which the UPDATE does not touch. -/
theorem applyStatus_applyStatus (amt : Rat) (samt : Option Rat) (today : Nat)
    (q : Payment) :
    applyStatus amt samt today (applyStatus amt samt today q) =
      applyStatus amt samt today q := rfl

/-- The status UPDATE keeps the row's id. -/
theorem applyStatus_id (amt : Rat) (samt : Option Rat) (today : Nat) (q : Payment) :
    (applyStatus amt samt today q).id = q.id := rfl

/-- Folding the per-payment UPDATEs over the table rewrites exactly the
rows whose id one of the fetched payments carries. -/
theorem foldl_setStatus (amt : Rat) (samt : Option Rat) (today : Nat) :
    ∀ (ps l : List Payment),
      ps.foldl (fun acc p => setStatus amt samt today p.id acc) l =
        l.map (fun q => if q.id ∈ ps.map Payment.id then applyStatus amt samt today q
                        else q) := by
  intro ps
  induction ps with
  | nil =>
    intro l
    simp
  | cons p rest ih =>
    intro l
    rw [List.foldl_cons, ih, setStatus, List.map_map]
    apply List.map_congr_left
    intro q _
    by_cases h1 : q.id = p.id
    · by_cases h2 : q.id ∈ rest.map Payment.id
      · simp [Function.comp, h1, h2, applyStatus_id, applyStatus_applyStatus]
      · simp [Function.comp, h1, h2, applyStatus_id, applyStatus_applyStatus]
    · by_cases h2 : q.id ∈ rest.map Payment.id
      · simp [Function.comp, h1, h2]
      · simp [Function.comp, h1, h2]

/-- With no failing write, the UPDATE loop is the fold of all UPDATEs. -/
theorem runStatusUpdates_none (amt : Rat) (samt : Option Rat) (today : Nat) :
    ∀ (ps : List Payment) (k : Nat) (l : List Payment),
      runStatusUpdates amt samt today none k ps l =
        some (ps.foldl (fun acc p => setStatus amt samt today p.id acc) l) := by
  intro ps
  induction ps with
  | nil =>
    intro k l
    rfl
  | cons p rest ih =>
    intro k l
    simp only [runStatusUpdates, reduceCtorEq, if_false, ih, List.foldl_cons]

/-- Under PRIMARY KEY ids, a table row's id occurs among a student's
fetched payments exactly when the row belongs to that student. -/
theorem id_mem_filter_iff (db : DB) (sid : Nat) (q : Payment)
    (hnd : (db.payments.map Payment.id).Nodup) (hq : q ∈ db.payments) :
    (q.id ∈ (paymentsOf db sid).map Payment.id) ↔ q.student_id = some sid := by
  rw [paymentsOf]
  constructor
  · intro h
    obtain ⟨r, hr, hid⟩ := List.mem_map.mp h
    obtain ⟨hrmem, hrp⟩ := List.mem_filter.mp hr
    have hrq : r = q := List.inj_on_of_nodup_map hnd hrmem hq hid
    rw [hrq] at hrp
    simpa using hrp
  · intro h
    exact List.mem_map_of_mem _ (List.mem_filter.mpr ⟨hq, by simp [h]⟩)

/-- The UPDATE's CASE with a non-NULL student amount, spelled out. -/
theorem reconStatus_some (amt A : Rat) (today : Nat) (q : Payment) :
    reconStatus amt (some A) today q =
      if A ≤ amt then PayStatus.paid
      else if q.payment_date + 30 < today then PayStatus.overdue
      else PayStatus.pending := by
  by_cases h : A ≤ amt <;> simp [reconStatus, h]

/-- Claim C6: for an existing student with a stored total amount and at
least one payment row, the reconciliation commits by rewriting each of the
student's payment rows' stored status — 'paid' when the supplied amount is
at least the student's total amount, else 'overdue' when today is strictly
beyond that row's own payment_date + 30 days, else 'pending' — leaving
every other payment row unchanged and inserting no new payment row (the
table keeps its length). -/
theorem reconcile_existing (db : DB) (sid : Nat) (amt A : Rat) (today : Nat)
    (s : Student)
    (hs : findStudent db sid = some s) (hA : s.amount = some A)
    (hne : paymentsOf db sid ≠ [])
    (hnd : (db.payments.map Payment.id).Nodup) :
    (∃ resp, reconcilePaymentStatus db sid amt today none =
      (Except.ok resp,
       { db with payments := (db.payments.map (fun q =>
           if q.student_id = some sid then
             { q with status :=
                 if A ≤ amt then PayStatus.paid
                 else if q.payment_date + 30 < today then PayStatus.overdue
                 else PayStatus.pending }
           else q)) })) ∧
    (reconcilePaymentStatus db sid amt today none).2.payments.length =
      db.payments.length := by
  have hemp : (paymentsOf db sid).isEmpty = false := by
    cases hps : paymentsOf db sid with
    | nil => exact absurd hps hne
    | cons x xs => rfl
  have hrun := runStatusUpdates_none amt s.amount today (paymentsOf db sid) 0 db.payments
  rw [foldl_setStatus] at hrun
  have hmap : (db.payments.map (fun q =>
      if q.id ∈ (paymentsOf db sid).map Payment.id then applyStatus amt s.amount today q
      else q)) =
    (db.payments.map (fun q =>
      if q.student_id = some sid then
        { q with status :=
            if A ≤ amt then PayStatus.paid
            else if q.payment_date + 30 < today then PayStatus.overdue
            else PayStatus.pending }
      else q)) := by
    apply List.map_congr_left
    intro q hq
    by_cases hmem : q.student_id = some sid
    · rw [if_pos ((id_mem_filter_iff db sid q hnd hq).mpr hmem), if_pos hmem]
      simp only [applyStatus]
      rw [hA, reconStatus_some]
    · rw [if_neg (fun hc => hmem ((id_mem_filter_iff db sid q hnd hq).mp hc)),
          if_neg hmem]
  rw [hmap] at hrun
  have hmain : reconcilePaymentStatus db sid amt today none =
      (Except.ok { success := true, message := "Payment status updated successfully",
                   payments := paymentsOf
                     { db with payments := (db.payments.map (fun q =>
                         if q.student_id = some sid then
                           { q with status :=
                               if A ≤ amt then PayStatus.paid
                               else if q.payment_date + 30 < today then PayStatus.overdue
                               else PayStatus.pending }
                           else q)) } sid },
       { db with payments := (db.payments.map (fun q =>
           if q.student_id = some sid then
             { q with status :=
                 if A ≤ amt then PayStatus.paid
                 else if q.payment_date + 30 < today then PayStatus.overdue
                 else PayStatus.pending }
           else q)) }) := by
    rw [reconcilePaymentStatus, hs]
    simp only
    rw [if_neg (by rw [hemp]; exact Bool.false_ne_true), hrun]
  refine ⟨⟨_, hmain⟩, ?_⟩
  rw [hmain]
  simp

/-- Witness for C6: reconciling student 1 (amount 100) of the example
database with newAmount 50 on day 50 marks the day-10 payment overdue and
the day-100 payment pending, and keeps both rows (no insertion). -/
theorem reconcile_existing_witness :
    (∃ resp, reconcilePaymentStatus exDBfull 1 50 50 none =
      (Except.ok resp,
       { exDBfull with payments := (exDBfull.payments.map (fun q =>
           if q.student_id = some 1 then
             { q with status :=
                 if (100 : Rat) ≤ 50 then PayStatus.paid
                 else if q.payment_date + 30 < 50 then PayStatus.overdue
                 else PayStatus.pending }
           else q)) })) ∧
    (reconcilePaymentStatus exDBfull 1 50 50 none).2.payments.length =
      exDBfull.payments.length :=
  reconcile_existing exDBfull 1 50 100 50 exStudentA rfl rfl (by decide) (by decide)

end TTA
